import Mathlib

/-!
# World API (`main.go`): request handlers over an explicit database and log

A shallow embedding of the three fiber handlers `getHealth`, `getCities`,
`getCountries`, of the application-wide `ErrorHandler` and of `initDatabase`.

* The process state a handler can touch is a `World`: the database behind the
  global handle `db` and the lines written through the `log` package.
* `database/sql` is modelled by what the handler observes of it: `db.Query`
  either fails or hands back `Rows`; `rows.Next` walks the delivered rows;
  `rows.Scan` fails or copies the columns positionally; `rows.Err` reports how
  the iteration ended.
* The two SQL statements are given their relational meaning over stored
  tables: all rows, ordered by `ID` ascending, resp. by `Population`
  descending, projected on the five selected columns.
* A database state holds the stored rows and the faults the connection meets
  during the next call; between two calls the faults may change while the
  rows stay.
* `encoding/json` is modelled on JSON values: a struct becomes an object with
  its tagged fields, a `nil` slice becomes `null`, any other slice an array,
  and a map an object whose keys are sorted.
* Go `int` is `Int`; a column value that does not fit is a `rows.Scan` error.
-/

namespace WorldAPI

/-! ## Go values -/

/-- A Go `error`, observed through its `Error()` method. -/
structure GoError where
  Error : String
deriving DecidableEq, Repr

/-- Struct `City` of `main.go`. -/
structure City where
  ID : Int
  Name : String
  CountryCode : String
  District : String
  Population : Int
deriving DecidableEq, Repr

/-- Struct `Country` of `main.go`. -/
structure Country where
  Code : String
  Name : String
  Continent : String
  Region : String
  Population : Int
deriving DecidableEq, Repr

/-- A Go slice `[]α`: the `nil` slice (the zero value of `var xs []α`) or a
slice holding elements, which may be empty. -/
inductive Slice (α : Type) where
  | nil : Slice α
  | mk (elems : List α) : Slice α
deriving DecidableEq, Repr

namespace Slice

/-- Built-in `append(xs, x)`: appending to the `nil` slice allocates. -/
def append {α : Type} : Slice α → α → Slice α
  | nil, x => mk [x]
  | mk elems, x => mk (elems ++ [x])

/-- Elements of a slice; the `nil` slice has none. -/
def toList {α : Type} : Slice α → List α
  | nil => []
  | mk elems => elems

/-- Built-in `len(xs)`. -/
def len {α : Type} (xs : Slice α) : Int :=
  (xs.toList.length : Int)

end Slice

/-! ## JSON values and `encoding/json` -/

/-- JSON documents. An object is the list of its members in the order the
encoder writes them. -/
inductive JSON where
  | null : JSON
  | bool (b : Bool) : JSON
  | num (n : Int) : JSON
  | str (s : String) : JSON
  | arr (items : List JSON) : JSON
  | obj (members : List (String × JSON)) : JSON

namespace JSON

/-- Member `key` of an object; `none` when the key is absent or the value is
not an object. -/
def get? : JSON → String → Option JSON
  | obj members, key => (members.find? (fun kv => kv.1 == key)).map Prod.snd
  | _, _ => none

/-- Keys of an object, in written order. -/
def keys : JSON → List String
  | obj members => members.map Prod.fst
  | _ => []

end JSON

/-- Encoding of a `City`: the fields in declaration order under their
`json:"..."` tags. -/
def City.marshal (c : City) : JSON :=
  .obj [("ID", .num c.ID), ("Name", .str c.Name), ("CountryCode", .str c.CountryCode),
    ("District", .str c.District), ("Population", .num c.Population)]

/-- Encoding of a `Country`. -/
def Country.marshal (c : Country) : JSON :=
  .obj [("Code", .str c.Code), ("Name", .str c.Name), ("Continent", .str c.Continent),
    ("Region", .str c.Region), ("Population", .num c.Population)]

/-- Encoding of a slice: the `nil` slice is written `null`, every other slice
as an array of its encoded elements. -/
def Slice.marshal {α : Type} (f : α → JSON) : Slice α → JSON
  | .nil => .null
  | .mk elems => .arr (elems.map f)

/-- The dynamic values (`interface{}`) this program stores in a `fiber.Map`. -/
inductive Any where
  | bool (b : Bool) : Any
  | int (n : Int) : Any
  | string (s : String) : Any
  | cities (xs : Slice City) : Any
  | countries (xs : Slice Country) : Any
deriving DecidableEq, Repr

/-- Encoding of a dynamic value. -/
def Any.marshal : Any → JSON
  | .bool b => .bool b
  | .int n => .num n
  | .string s => .str s
  | .cities xs => xs.marshal City.marshal
  | .countries xs => xs.marshal Country.marshal

/-- Type `fiber.Map`, i.e. `map[string]interface{}`, as the entries of a map
literal (the keys of every literal in `main.go` are distinct). -/
abbrev Map := List (String × Any)

/-- Order of two members by key, as `encoding/json` sorts map keys. -/
def keyLE (a b : String × JSON) : Prop := a.1.toList ≤ b.1.toList

instance : DecidableRel keyLE :=
  fun a b => inferInstanceAs (Decidable (a.1.toList ≤ b.1.toList))

/-- Encoding of a map: an object holding the encoded entries sorted by key. -/
def Map.marshal (m : Map) : JSON :=
  .obj ((m.map (fun kv => (kv.1, kv.2.marshal))).insertionSort keyLE)

/-! ## `database/sql` -/

/-- One row of a result set: the column values in `SELECT` order and, when the
driver cannot convert them into the destinations, the error `rows.Scan`
returns for this row. -/
structure ResultRow (τ : Type) where
  cols : τ
  scanErr : Option GoError

/-- Type `*sql.Rows`: the rows `rows.Next()` delivers before it returns
`false`, and the value of `rows.Err()` afterwards. -/
structure Rows (τ : Type) where
  items : List (ResultRow τ)
  Err : Option GoError

/-- A stored row of table `city`. -/
structure CityRow where
  ID : Int
  Name : String
  CountryCode : String
  District : String
  Population : Int
  scanErr : Option GoError := none
deriving DecidableEq, Repr

/-- A stored row of table `country` (the columns the program selects). -/
structure CountryRow where
  Code : String
  Name : String
  Continent : String
  Region : String
  Population : Int
  scanErr : Option GoError := none
deriving DecidableEq, Repr

/-- A table together with the faults the connection meets while it serves the
next statement on it: `queryErr` is the error of `db.Query` when the statement
cannot be executed (server unreachable, SQL error); `iterErr = some (n, e)`
breaks the result stream after `n` rows with error `e`. The faults belong to
one call: they may be gone, or new, at the next call although the stored rows
are the same. -/
structure Table (ρ : Type) where
  rows : List ρ
  queryErr : Option GoError := none
  iterErr : Option (Nat × GoError) := none

/-- The database behind the global handle `db`. -/
structure Database where
  city : Table CityRow
  country : Table CountryRow

/-- Order `ORDER BY ID`. -/
def byID (a b : CityRow) : Prop := a.ID ≤ b.ID

/-- Order `ORDER BY Population DESC`. -/
def byPopulationDesc (a b : CountryRow) : Prop := b.Population ≤ a.Population

instance : DecidableRel byID := fun a b => inferInstanceAs (Decidable (a.ID ≤ b.ID))

instance : DecidableRel byPopulationDesc :=
  fun a b => inferInstanceAs (Decidable (b.Population ≤ a.Population))

instance : IsTotal CityRow byID := ⟨fun a b => Int.le_total a.ID b.ID⟩

instance : IsTrans CityRow byID := ⟨fun _ _ _ hab hbc => Int.le_trans hab hbc⟩

instance : IsTotal CountryRow byPopulationDesc :=
  ⟨fun a b => Int.le_total b.Population a.Population⟩

instance : IsTrans CountryRow byPopulationDesc := ⟨fun _ _ _ hab hbc => Int.le_trans hbc hab⟩

/-- Columns `ID, Name, CountryCode, District, Population` of a stored row. -/
def CityRow.select (r : CityRow) : ResultRow (Int × String × String × String × Int) :=
  ⟨(r.ID, r.Name, r.CountryCode, r.District, r.Population), r.scanErr⟩

/-- Columns `Code, Name, Continent, Region, Population` of a stored row. -/
def CountryRow.select (r : CountryRow) :
    ResultRow (String × String × String × String × Int) :=
  ⟨(r.Code, r.Name, r.Continent, r.Region, r.Population), r.scanErr⟩

/-- Execution of an unfiltered `SELECT ... ORDER BY` on a table: the statement
fails, or it yields every stored row in the requested order (ties in stored
order), cut where the stream breaks. -/
def Table.query {ρ τ : Type} (t : Table ρ) (order : ρ → ρ → Prop) [DecidableRel order]
    (cols : ρ → ResultRow τ) : Except GoError (Rows τ) :=
  match t.queryErr with
  | some err => .error err
  | none =>
    match t.iterErr with
    | none => .ok ⟨(t.rows.insertionSort order).map cols, none⟩
    | some (n, err) => .ok ⟨((t.rows.insertionSort order).map cols).take n, some err⟩

/-- Call `db.Query("SELECT ID, Name, CountryCode, District, Population FROM city
ORDER BY ID")`. -/
def Database.queryCities (db : Database) :
    Except GoError (Rows (Int × String × String × String × Int)) :=
  db.city.query byID CityRow.select

/-- Call `db.Query("SELECT Code, Name, Continent, Region, Population FROM country
ORDER BY Population DESC")`. -/
def Database.queryCountries (db : Database) :
    Except GoError (Rows (String × String × String × String × Int)) :=
  db.country.query byPopulationDesc CountryRow.select

/-- Call `rows.Scan(&city.ID, &city.Name, &city.CountryCode, &city.District,
&city.Population)`: column `i` goes to the `i`-th destination. -/
def scanCity (row : ResultRow (Int × String × String × String × Int)) : Except GoError City :=
  match row.scanErr with
  | some err => .error err
  | none =>
    .ok { ID := row.cols.1, Name := row.cols.2.1, CountryCode := row.cols.2.2.1,
          District := row.cols.2.2.2.1, Population := row.cols.2.2.2.2 }

/-- Call `rows.Scan(&country.Code, &country.Name, &country.Continent,
&country.Region, &country.Population)`. -/
def scanCountry (row : ResultRow (String × String × String × String × Int)) :
    Except GoError Country :=
  match row.scanErr with
  | some err => .error err
  | none =>
    .ok { Code := row.cols.1, Name := row.cols.2.1, Continent := row.cols.2.2.1,
          Region := row.cols.2.2.2.1, Population := row.cols.2.2.2.2 }

/-- The loop `for rows.Next() { err := rows.Scan(...); if err != nil { return };
xs = append(xs, x) }` from the slice built so far: the first failing scan
leaves the loop with its error, otherwise every delivered row is appended. -/
def scanLoop {τ α : Type} (scan : ResultRow τ → Except GoError α) :
    List (ResultRow τ) → Slice α → Except GoError (Slice α)
  | [], xs => .ok xs
  | row :: rest, xs =>
    match scan row with
    | .error err => .error err
    | .ok x => scanLoop scan rest (xs.append x)

/-! ## Process state, `log` and fiber -/

/-- What a handler can read or change outside its context: the database and
the entries written through package `log`, one message per call, without the
time stamp the package puts in front. -/
structure World where
  db : Database
  log : List String

/-- How a call ends: it returns, or the process has exited (`os.Exit`). -/
inductive Outcome (α : Type) where
  | ret (value : α) : Outcome α
  | exit (code : Nat) : Outcome α

/-- Functions `log.Println` and `log.Printf`, applied to the formatted message:
one entry is appended. -/
def logPrint (msg : String) (w : World) : World :=
  { w with log := w.log ++ [msg] }

/-- Function `log.Fatal`: one entry is appended and the process exits with
status 1. -/
def logFatal {α : Type} (msg : String) (w : World) : Outcome α × World :=
  (.exit 1, { w with log := w.log ++ [msg] })

/-- An inbound HTTP request. -/
structure Request where
  method : String
  path : String
  body : String
deriving DecidableEq, Repr

/-- Type `*fiber.Ctx`: the request and the response under construction. -/
structure Ctx where
  req : Request
  status : Nat
  contentType : Option String
  body : Option JSON

/-- The context a handler receives for a request: status 200, nothing
written yet. -/
def Ctx.acquire (req : Request) : Ctx :=
  ⟨req, 200, none, none⟩

/-- Method `c.Status(code)`. -/
def Ctx.Status (c : Ctx) (code : Nat) : Ctx :=
  { c with status := code }

/-- Method `c.JSON(data)`: the encoded map becomes the body, the content type
is set, and `nil` is returned (encoding these values cannot fail). -/
def Ctx.JSON (c : Ctx) (data : Map) : Ctx × Option GoError :=
  ({ c with body := some data.marshal, contentType := some "application/json" }, none)

/-- Result of running a handler: how it ended, and the world afterwards. -/
abbrev Run := Outcome (Ctx × Option GoError) × World

/-! ## `main.go` -/

/-- Function `initDatabase`, given the results of `sql.Open` and `db.Ping`: the
process exits on either error, and otherwise the handle `db` serves the
database of the world from then on. -/
def initDatabase (openErr pingErr : Option GoError) (w : World) : Outcome Unit × World :=
  match openErr with
  | some err => logFatal ("Failed to connect to database:" ++ err.Error) w
  | none =>
    match pingErr with
    | some err => logFatal ("Failed to ping database:" ++ err.Error) w
    | none => (.ret (), logPrint "Database \x27world\x27 connected successfully" w)

/-- Handler `getCities`. The deferred `rows.Close()` releases the cursor and
touches nothing of the modelled state. -/
def getCities (c : Ctx) (w : World) : Run :=
  let w := logPrint "Fetching all cities from database" w
  match w.db.queryCities with
  | .error err =>
    let w := logPrint ("Failed to fetch cities: " ++ err.Error) w
    (.ret ((c.Status 500).JSON
      [("success", .bool false), ("error", .string "Failed to fetch cities")]), w)
  | .ok rows =>
    match scanLoop scanCity rows.items Slice.nil with
    | .error err =>
      let w := logPrint ("Failed to scan city data: " ++ err.Error) w
      (.ret ((c.Status 500).JSON
        [("success", .bool false), ("error", .string "Failed to scan city data")]), w)
    | .ok cities =>
      match rows.Err with
      | some err =>
        let w := logPrint ("Error iterating over cities: " ++ err.Error) w
        (.ret ((c.Status 500).JSON
          [("success", .bool false), ("error", .string "Error iterating over cities")]), w)
      | none =>
        (.ret (c.JSON
          [("success", .bool true), ("count", .int cities.len), ("data", .cities cities)]), w)

/-- Handler `getCountries`. The deferred `rows.Close()` releases the cursor and
touches nothing of the modelled state. -/
def getCountries (c : Ctx) (w : World) : Run :=
  let w := logPrint "Fetching all countries from database" w
  match w.db.queryCountries with
  | .error err =>
    let w := logPrint ("Failed to fetch countries: " ++ err.Error) w
    (.ret ((c.Status 500).JSON
      [("success", .bool false), ("error", .string "Failed to fetch countries")]), w)
  | .ok rows =>
    match scanLoop scanCountry rows.items Slice.nil with
    | .error err =>
      let w := logPrint ("Failed to scan country data: " ++ err.Error) w
      (.ret ((c.Status 500).JSON
        [("success", .bool false), ("error", .string "Failed to scan country data")]), w)
    | .ok countries =>
      match rows.Err with
      | some err =>
        let w := logPrint ("Error iterating over countries: " ++ err.Error) w
        (.ret ((c.Status 500).JSON
          [("success", .bool false), ("error", .string "Error iterating over countries")]), w)
      | none =>
        (.ret (c.JSON
          [("success", .bool true), ("count", .int countries.len),
           ("data", .countries countries)]), w)

/-- Handler `getHealth`. -/
def getHealth (c : Ctx) (w : World) : Run :=
  (.ret (c.JSON [("status", .string "OK"), ("message", .string "World API is running")]), w)

/-- The `ErrorHandler` of `fiber.Config` in `main`. -/
def ErrorHandler (c : Ctx) (err : GoError) (w : World) : Run :=
  let w := logPrint ("Error: " ++ err.Error) w
  (.ret ((c.Status 500).JSON [("success", .bool false), ("error", .string err.Error)]), w)

/-! ## Vocabulary of the statements -/

/-- The context a run returned with, if the run returned. -/
def Run.ctx? : Run → Option Ctx
  | (.ret (c, _), _) => some c
  | (.exit _, _) => none

/-- HTTP status of the response, if the run returned. -/
def Run.status? (r : Run) : Option Nat :=
  r.ctx?.map (fun c => c.status)

/-- Body of the response, if the run returned and wrote one. -/
def Run.body? (r : Run) : Option JSON :=
  r.ctx?.bind (fun c => c.body)

/-- The envelope `{success: false, error: msg}` as the encoder writes it. -/
def failureEnvelope (msg : String) : JSON :=
  .obj [("error", .str msg), ("success", .bool false)]

/-- The envelope `{success: true, count: n, data: data}` as the encoder writes
it. -/
def successEnvelope (n : Int) (data : JSON) : JSON :=
  .obj [("count", .num n), ("data", data), ("success", .bool true)]

/-- Context `c` after `c.Status(500).JSON(...)` wrote `body`. -/
def Ctx.failed (c : Ctx) (body : WorldAPI.JSON) : Ctx :=
  { c with status := 500, contentType := some "application/json", body := some body }

/-- The `City` holding the columns of a stored row, field for field. -/
def CityRow.toCity (r : CityRow) : City :=
  { ID := r.ID, Name := r.Name, CountryCode := r.CountryCode, District := r.District,
    Population := r.Population }

/-- The `Country` holding the columns of a stored row, field for field. -/
def CountryRow.toCountry (r : CountryRow) : Country :=
  { Code := r.Code, Name := r.Name, Continent := r.Continent, Region := r.Region,
    Population := r.Population }

/-- The `City` a successful scan fills from the columns of a result row. -/
def City.ofCols (cols : Int × String × String × String × Int) : City :=
  { ID := cols.1, Name := cols.2.1, CountryCode := cols.2.2.1, District := cols.2.2.2.1,
    Population := cols.2.2.2.2 }

/-- The `Country` a successful scan fills from the columns of a result row. -/
def Country.ofCols (cols : String × String × String × String × Int) : Country :=
  { Code := cols.1, Name := cols.2.1, Continent := cols.2.2.1, Region := cols.2.2.2.1,
    Population := cols.2.2.2.2 }

/-- Stage at which a listing handler can fail. -/
inductive Stage where
  | query : Stage
  | scan : Stage
  | iteration : Stage
deriving DecidableEq, Repr

/-- The stage at which the answer of the driver makes a listing fail, with
the underlying driver error: the query error, else the error of the first
delivered row that does not scan, else the iteration error; `none` when
nothing fails. -/
def failure {τ : Type} : Except GoError (Rows τ) → Option (Stage × GoError)
  | .error err => some (.query, err)
  | .ok rows =>
    match rows.items.findSome? (fun row => row.scanErr) with
    | some err => some (.scan, err)
    | none => rows.Err.map (fun err => (Stage.iteration, err))

/-- Error text `getCities` answers with at each stage. -/
def citiesMessage : Stage → String
  | .query => "Failed to fetch cities"
  | .scan => "Failed to scan city data"
  | .iteration => "Error iterating over cities"

/-- Error text `getCountries` answers with at each stage. -/
def countriesMessage : Stage → String
  | .query => "Failed to fetch countries"
  | .scan => "Failed to scan country data"
  | .iteration => "Error iterating over countries"

/-- Log entry `getCities` writes for a failure at each stage. -/
def citiesLogEntry : Stage → GoError → String
  | .query, err => "Failed to fetch cities: " ++ err.Error
  | .scan, err => "Failed to scan city data: " ++ err.Error
  | .iteration, err => "Error iterating over cities: " ++ err.Error

/-- Log entry `getCountries` writes for a failure at each stage. -/
def countriesLogEntry : Stage → GoError → String
  | .query, err => "Failed to fetch countries: " ++ err.Error
  | .scan, err => "Failed to scan country data: " ++ err.Error
  | .iteration, err => "Error iterating over countries: " ++ err.Error

/-- Context `c` after `c.JSON(...)` wrote `body`. -/
def Ctx.wrote (c : Ctx) (body : WorldAPI.JSON) : Ctx :=
  { c with contentType := some "application/json", body := some body }

/-- The slice obtained from the `nil` slice by appending the elements of a
list one after the other. -/
def Slice.collect {α : Type} : List α → Slice α
  | [] => .nil
  | x :: xs => .mk (x :: xs)

/-! ## Sample states -/

/-- A request for the city listing. -/
def sampleRequest : Request := ⟨"GET", "/api/v1/cities", ""⟩

/-- Three cities stored out of `ID` order. -/
def sampleCities : List CityRow :=
  [⟨3, "Herat", "AFG", "Herat", 186800, none⟩, ⟨1, "Kabul", "AFG", "Kabol", 1780000, none⟩,
   ⟨2, "Qandahar", "AFG", "Qandahar", 237500, none⟩]

/-- Four countries stored out of population order, two of them tied. -/
def sampleCountries : List CountryRow :=
  [⟨"ABW", "Aruba", "North America", "Caribbean", 103000, none⟩,
   ⟨"CHN", "China", "Asia", "Eastern Asia", 1277558000, none⟩,
   ⟨"ATA", "Antarctica", "Antarctica", "Antarctica", 0, none⟩,
   ⟨"BVT", "Bouvet Island", "Antarctica", "Antarctica", 0, none⟩]

/-- A healthy database. -/
def sampleWorld : World :=
  ⟨⟨⟨sampleCities, none, none⟩, ⟨sampleCountries, none, none⟩⟩, []⟩

/-- An unreachable database: every statement fails. -/
def downWorld : World :=
  ⟨⟨⟨sampleCities, some ⟨"dial tcp 127.0.0.1:3306: connect: connection refused"⟩, none⟩,
    ⟨sampleCountries, some ⟨"dial tcp 127.0.0.1:3306: connect: connection refused"⟩, none⟩⟩, []⟩

/-- A database that cannot be reached in time: every statement fails, with
another driver error than in `downWorld`. -/
def timeoutWorld : World :=
  ⟨⟨⟨[], some ⟨"dial tcp 10.0.0.7:3306: i/o timeout"⟩, none⟩,
    ⟨[], some ⟨"dial tcp 10.0.0.7:3306: i/o timeout"⟩, none⟩⟩,
   ["Database \x27world\x27 connected successfully"]⟩

/-- A database whose result streams break after every row was delivered. -/
def brokenStreamWorld : World :=
  ⟨⟨⟨sampleCities, none, some (3, ⟨"unexpected EOF"⟩)⟩,
    ⟨sampleCountries, none, some (4, ⟨"unexpected EOF"⟩)⟩⟩, []⟩

/-- A database where one city and one country hold a `NULL` the driver cannot
convert; a good row precedes each of them in result order. -/
def badRowWorld : World :=
  ⟨⟨⟨[⟨3, "Herat", "AFG", "Herat", 186800, none⟩, ⟨1, "Kabul", "AFG", "Kabol", 1780000, none⟩,
      ⟨2, "Qandahar", "AFG", "", 0,
        some ⟨"sql: Scan error on column index 4, name \"Population\": converting NULL to int is unsupported"⟩⟩],
     none, none⟩,
    ⟨[⟨"ABW", "Aruba", "North America", "Caribbean", 103000, none⟩,
      ⟨"CHN", "China", "Asia", "Eastern Asia", 1277558000, none⟩,
      ⟨"ATA", "Antarctica", "Antarctica", "", 0,
        some ⟨"sql: Scan error on column index 3, name \"Region\": converting NULL to string is unsupported"⟩⟩],
     none, none⟩⟩, []⟩

/-! ## Lemmas on the model -/

theorem marshal_failure (msg : String) :
    Map.marshal [("success", .bool false), ("error", .string msg)] = failureEnvelope msg :=
  rfl

theorem marshal_success (n : Int) (data : Any) :
    Map.marshal [("success", .bool true), ("count", .int n), ("data", data)] =
      successEnvelope n data.marshal :=
  rfl

theorem collect_append {α : Type} (xs : List α) (x : α) :
    (Slice.collect xs).append x = Slice.collect (xs ++ [x]) := by
  cases xs <;> rfl

theorem collect_len {α : Type} (xs : List α) : (Slice.collect xs).len = xs.length := by
  cases xs <;> rfl

theorem collect_toList {α : Type} (xs : List α) : (Slice.collect xs).toList = xs := by
  cases xs <;> rfl

/-- The scanning loop, in closed form: it stops at the first delivered row
whose scan fails, and otherwise appends one element per delivered row. -/
theorem scanLoop_eq {τ α : Type} (scan : ResultRow τ → Except GoError α) (f : τ → α)
    (hscan : ∀ row, scan row =
      match row.scanErr with
      | some err => .error err
      | none => .ok (f row.cols)) :
    ∀ (items : List (ResultRow τ)) (done : List α),
      scanLoop scan items (Slice.collect done) =
        match items.findSome? (fun row => row.scanErr) with
        | some err => .error err
        | none => .ok (Slice.collect (done ++ items.map (fun row => f row.cols)))
  | [], done => by simp [scanLoop]
  | row :: rest, done => by
    have ih := scanLoop_eq scan f hscan rest (done ++ [f row.cols])
    cases h : row.scanErr with
    | some err => simp [scanLoop, hscan row, h, List.findSome?]
    | none =>
      simp only [scanLoop, hscan row, h, List.findSome?, collect_append, ih, List.map,
        List.append_assoc, List.singleton_append]

/-- The scanning loop started from the `nil` slice, as the handlers start it. -/
theorem scanLoop_nil {τ α : Type} (scan : ResultRow τ → Except GoError α) (f : τ → α)
    (hscan : ∀ row, scan row =
      match row.scanErr with
      | some err => .error err
      | none => .ok (f row.cols))
    (items : List (ResultRow τ)) :
    scanLoop scan items Slice.nil =
      match items.findSome? (fun row => row.scanErr) with
      | some err => .error err
      | none => .ok (Slice.collect (items.map (fun row => f row.cols))) := by
  simpa [Slice.collect] using scanLoop_eq scan f hscan items []

theorem scanCity_eq (row : ResultRow (Int × String × String × String × Int)) :
    scanCity row =
      match row.scanErr with
      | some err => .error err
      | none => .ok (City.ofCols row.cols) := by
  unfold scanCity
  cases row.scanErr <;> rfl

theorem scanCountry_eq (row : ResultRow (String × String × String × String × Int)) :
    scanCountry row =
      match row.scanErr with
      | some err => .error err
      | none => .ok (Country.ofCols row.cols) := by
  unfold scanCountry
  cases row.scanErr <;> rfl

/-- What `getCities` does when the answer of the driver fails at some stage. -/
theorem getCities_of_failure (c : Ctx) (w : World) (st : Stage) (err : GoError)
    (h : failure w.db.queryCities = some (st, err)) :
    getCities c w =
      (.ret (c.failed (failureEnvelope (citiesMessage st)), none),
       ⟨w.db, w.log ++ ["Fetching all cities from database", citiesLogEntry st err]⟩) := by
  unfold getCities
  cases hq : w.db.queryCities with
  | error e =>
    rw [hq] at h
    simp only [failure, Option.some.injEq, Prod.mk.injEq] at h
    obtain ⟨rfl, rfl⟩ := h
    simp [logPrint, hq, Ctx.JSON, Ctx.Status, Ctx.failed, marshal_failure, citiesMessage,
      citiesLogEntry]
  | ok rows =>
    rw [hq] at h
    have hl := scanLoop_nil scanCity City.ofCols scanCity_eq rows.items
    simp only [failure] at h
    cases hf : rows.items.findSome? (fun row => row.scanErr) with
    | some e =>
      rw [hf] at h hl
      simp only [Option.some.injEq, Prod.mk.injEq] at h
      obtain ⟨rfl, rfl⟩ := h
      simp [logPrint, hq, hl, Ctx.JSON, Ctx.Status, Ctx.failed, marshal_failure, citiesMessage,
        citiesLogEntry]
    | none =>
      rw [hf] at h hl
      cases he : rows.Err with
      | none => simp [he] at h
      | some e =>
        simp only [he, Option.map_some', Option.some.injEq, Prod.mk.injEq] at h
        obtain ⟨rfl, rfl⟩ := h
        simp [logPrint, hq, hl, he, Ctx.JSON, Ctx.Status, Ctx.failed, marshal_failure,
          citiesMessage, citiesLogEntry]

/-- What `getCities` does when nothing fails. -/
theorem getCities_of_ok (c : Ctx) (w : World)
    (rows : Rows (Int × String × String × String × Int))
    (hq : w.db.queryCities = .ok rows) (h : failure w.db.queryCities = none) :
    getCities c w =
      (.ret (c.wrote (successEnvelope rows.items.length
          ((Slice.collect (rows.items.map (fun row => City.ofCols row.cols))).marshal
            City.marshal)), none),
       ⟨w.db, w.log ++ ["Fetching all cities from database"]⟩) := by
  unfold getCities
  rw [hq] at h
  have hl := scanLoop_nil scanCity City.ofCols scanCity_eq rows.items
  simp only [failure] at h
  cases hf : rows.items.findSome? (fun row => row.scanErr) with
  | some e => simp [hf] at h
  | none =>
    rw [hf] at h hl
    cases he : rows.Err with
    | some e => simp [he] at h
    | none =>
      simp [logPrint, hq, hl, he, Ctx.JSON, Ctx.wrote, marshal_success, collect_len,
        Any.marshal]

/-- What `getCountries` does when the answer of the driver fails at some
stage. -/
theorem getCountries_of_failure (c : Ctx) (w : World) (st : Stage) (err : GoError)
    (h : failure w.db.queryCountries = some (st, err)) :
    getCountries c w =
      (.ret (c.failed (failureEnvelope (countriesMessage st)), none),
       ⟨w.db, w.log ++ ["Fetching all countries from database", countriesLogEntry st err]⟩) := by
  unfold getCountries
  cases hq : w.db.queryCountries with
  | error e =>
    rw [hq] at h
    simp only [failure, Option.some.injEq, Prod.mk.injEq] at h
    obtain ⟨rfl, rfl⟩ := h
    simp [logPrint, hq, Ctx.JSON, Ctx.Status, Ctx.failed, marshal_failure, countriesMessage,
      countriesLogEntry]
  | ok rows =>
    rw [hq] at h
    have hl := scanLoop_nil scanCountry Country.ofCols scanCountry_eq rows.items
    simp only [failure] at h
    cases hf : rows.items.findSome? (fun row => row.scanErr) with
    | some e =>
      rw [hf] at h hl
      simp only [Option.some.injEq, Prod.mk.injEq] at h
      obtain ⟨rfl, rfl⟩ := h
      simp [logPrint, hq, hl, Ctx.JSON, Ctx.Status, Ctx.failed, marshal_failure,
        countriesMessage, countriesLogEntry]
    | none =>
      rw [hf] at h hl
      cases he : rows.Err with
      | none => simp [he] at h
      | some e =>
        simp only [he, Option.map_some', Option.some.injEq, Prod.mk.injEq] at h
        obtain ⟨rfl, rfl⟩ := h
        simp [logPrint, hq, hl, he, Ctx.JSON, Ctx.Status, Ctx.failed, marshal_failure,
          countriesMessage, countriesLogEntry]

/-- What `getCountries` does when nothing fails. -/
theorem getCountries_of_ok (c : Ctx) (w : World)
    (rows : Rows (String × String × String × String × Int))
    (hq : w.db.queryCountries = .ok rows) (h : failure w.db.queryCountries = none) :
    getCountries c w =
      (.ret (c.wrote (successEnvelope rows.items.length
          ((Slice.collect (rows.items.map (fun row => Country.ofCols row.cols))).marshal
            Country.marshal)), none),
       ⟨w.db, w.log ++ ["Fetching all countries from database"]⟩) := by
  unfold getCountries
  rw [hq] at h
  have hl := scanLoop_nil scanCountry Country.ofCols scanCountry_eq rows.items
  simp only [failure] at h
  cases hf : rows.items.findSome? (fun row => row.scanErr) with
  | some e => simp [hf] at h
  | none =>
    rw [hf] at h hl
    cases he : rows.Err with
    | some e => simp [he] at h
    | none =>
      simp [logPrint, hq, hl, he, Ctx.JSON, Ctx.wrote, marshal_success, collect_len,
        Any.marshal]

/-- A statement on a table without faults yields every stored row, in the
requested order, and a clean end of iteration. -/
theorem query_of_healthy {ρ τ : Type} (t : Table ρ) (order : ρ → ρ → Prop) [DecidableRel order]
    (cols : ρ → ResultRow τ) (hq : t.queryErr = none) (hi : t.iterErr = none) :
    t.query order cols = .ok ⟨(t.rows.insertionSort order).map cols, none⟩ := by
  simp [Table.query, hq, hi]

/-- The answer of a statement on a table without faults whose rows all scan
fails at no stage. -/
theorem failure_of_healthy {ρ τ : Type} (t : Table ρ) (order : ρ → ρ → Prop) [DecidableRel order]
    (cols : ρ → ResultRow τ) (hq : t.queryErr = none) (hi : t.iterErr = none)
    (hs : ∀ r ∈ t.rows, (cols r).scanErr = none) :
    failure (t.query order cols) = none := by
  rw [query_of_healthy t order cols hq hi]
  have hnone : ((t.rows.insertionSort order).map cols).findSome? (fun row => row.scanErr)
      = none := by
    rw [List.findSome?_eq_none_iff]
    intro row hrow
    obtain ⟨r, hr, rfl⟩ := List.mem_map.1 hrow
    exact hs r ((List.perm_insertionSort order t.rows).mem_iff.1 hr)
  simp [failure, hnone]

theorem collect_of_ne_nil {α : Type} (xs : List α) (h : xs ≠ []) :
    Slice.collect xs = Slice.mk xs := by
  cases xs with
  | nil => exact absurd rfl h
  | cons x xs => rfl

/-! ## The listing endpoints on healthy tables -/

/-- C1 (as amended): for a non-empty `city` table whose query succeeds, whose
rows all scan and whose iteration ends without error, `getCities` answers
status 200 with `success = true`, `count` the number of stored rows and `data`
the array of one `City` per stored row, copied field for field, in ascending
order of `ID`; it logs its entry line only. -/
theorem getCities_lists_table_by_id (req : Request) (w : World)
    (hne : w.db.city.rows ≠ [])
    (hq : w.db.city.queryErr = none)
    (hs : ∀ r ∈ w.db.city.rows, r.scanErr = none)
    (hi : w.db.city.iterErr = none) :
    getCities (Ctx.acquire req) w =
        (.ret (⟨req, 200, some "application/json",
            some (.obj [("count", .num w.db.city.rows.length),
              ("data", .arr (((w.db.city.rows.insertionSort byID).map CityRow.toCity).map
                City.marshal)),
              ("success", .bool true)])⟩, none),
         ⟨w.db, w.log ++ ["Fetching all cities from database"]⟩) ∧
      ((w.db.city.rows.insertionSort byID).map CityRow.toCity).Perm
        (w.db.city.rows.map CityRow.toCity) ∧
      ((w.db.city.rows.insertionSort byID).map CityRow.toCity).Sorted
        (fun a b => a.ID ≤ b.ID) := by
  refine ⟨?_, (List.perm_insertionSort byID _).map _, ?_⟩
  · have hf : failure w.db.queryCities = none :=
      failure_of_healthy w.db.city byID CityRow.select hq hi hs
    have hok : w.db.queryCities =
        .ok ⟨(w.db.city.rows.insertionSort byID).map CityRow.select, none⟩ :=
      query_of_healthy w.db.city byID CityRow.select hq hi
    rw [getCities_of_ok (Ctx.acquire req) w _ hok hf]
    have hmap : ((w.db.city.rows.insertionSort byID).map CityRow.select).map
        (fun row => City.ofCols row.cols) =
        (w.db.city.rows.insertionSort byID).map CityRow.toCity := by
      rw [List.map_map]; rfl
    have hnn : (w.db.city.rows.insertionSort byID).map CityRow.toCity ≠ [] := by
      intro h
      have hlen := congrArg List.length h
      rw [List.length_map, List.length_insertionSort] at hlen
      exact hne (List.length_eq_zero.1 hlen)
    simp only [hmap, collect_of_ne_nil _ hnn, List.length_map, List.length_insertionSort]
    rfl
  · have hsorted := List.sorted_insertionSort byID w.db.city.rows
    exact List.pairwise_map.2 hsorted

/-- C1, witness: three cities stored out of order. -/
theorem getCities_lists_table_by_id_witness :
    sampleWorld.db.city.rows ≠ [] ∧
    sampleWorld.db.city.queryErr = none ∧
    (∀ r ∈ sampleWorld.db.city.rows, r.scanErr = none) ∧
    sampleWorld.db.city.iterErr = none ∧
    (getCities (Ctx.acquire sampleRequest) sampleWorld =
        (.ret (⟨sampleRequest, 200, some "application/json",
            some (.obj [("count", .num sampleWorld.db.city.rows.length),
              ("data", .arr (((sampleWorld.db.city.rows.insertionSort byID).map
                CityRow.toCity).map City.marshal)),
              ("success", .bool true)])⟩, none),
         ⟨sampleWorld.db, sampleWorld.log ++ ["Fetching all cities from database"]⟩) ∧
      ((sampleWorld.db.city.rows.insertionSort byID).map CityRow.toCity).Perm
        (sampleWorld.db.city.rows.map CityRow.toCity) ∧
      ((sampleWorld.db.city.rows.insertionSort byID).map CityRow.toCity).Sorted
        (fun a b => a.ID ≤ b.ID)) :=
  ⟨by decide, rfl, by decide, rfl,
    getCities_lists_table_by_id sampleRequest sampleWorld (by decide) rfl (by decide) rfl⟩

/-- C1, counterexample: the query succeeds and all three rows are delivered and
scanned, yet the iteration ends with an error and the answer is the 500
failure envelope, not a listing. -/
theorem getCities_rejects_broken_stream :
    brokenStreamWorld.db.city.rows ≠ [] ∧
    brokenStreamWorld.db.city.queryErr = none ∧
    (∀ r ∈ brokenStreamWorld.db.city.rows, r.scanErr = none) ∧
    (∃ rows, brokenStreamWorld.db.queryCities = .ok rows ∧ rows.items.length = 3) ∧
    (getCities (Ctx.acquire sampleRequest) brokenStreamWorld).status? = some 500 ∧
    (getCities (Ctx.acquire sampleRequest) brokenStreamWorld).body? =
      some (.obj [("error", .str "Error iterating over cities"), ("success", .bool false)]) :=
  ⟨by decide, rfl, by decide, ⟨_, rfl, rfl⟩, rfl, rfl⟩

/-- C2 (as amended): for a non-empty `country` table whose query succeeds,
whose rows all scan and whose iteration ends without error, `getCountries`
answers status 200 with `success = true`, `count` the number of stored rows
and `data` the array of one `Country` per stored row in non-increasing order
of `Population`; it logs its entry line only. -/
theorem getCountries_lists_table_by_population (req : Request) (w : World)
    (hne : w.db.country.rows ≠ [])
    (hq : w.db.country.queryErr = none)
    (hs : ∀ r ∈ w.db.country.rows, r.scanErr = none)
    (hi : w.db.country.iterErr = none) :
    getCountries (Ctx.acquire req) w =
        (.ret (⟨req, 200, some "application/json",
            some (.obj [("count", .num w.db.country.rows.length),
              ("data", .arr (((w.db.country.rows.insertionSort byPopulationDesc).map
                CountryRow.toCountry).map Country.marshal)),
              ("success", .bool true)])⟩, none),
         ⟨w.db, w.log ++ ["Fetching all countries from database"]⟩) ∧
      ((w.db.country.rows.insertionSort byPopulationDesc).map CountryRow.toCountry).Perm
        (w.db.country.rows.map CountryRow.toCountry) ∧
      ((w.db.country.rows.insertionSort byPopulationDesc).map CountryRow.toCountry).Sorted
        (fun a b => a.Population ≥ b.Population) := by
  refine ⟨?_, (List.perm_insertionSort byPopulationDesc _).map _, ?_⟩
  · have hf : failure w.db.queryCountries = none :=
      failure_of_healthy w.db.country byPopulationDesc CountryRow.select hq hi hs
    have hok : w.db.queryCountries =
        .ok ⟨(w.db.country.rows.insertionSort byPopulationDesc).map CountryRow.select, none⟩ :=
      query_of_healthy w.db.country byPopulationDesc CountryRow.select hq hi
    rw [getCountries_of_ok (Ctx.acquire req) w _ hok hf]
    have hmap : ((w.db.country.rows.insertionSort byPopulationDesc).map CountryRow.select).map
        (fun row => Country.ofCols row.cols) =
        (w.db.country.rows.insertionSort byPopulationDesc).map CountryRow.toCountry := by
      rw [List.map_map]; rfl
    have hnn : (w.db.country.rows.insertionSort byPopulationDesc).map CountryRow.toCountry
        ≠ [] := by
      intro h
      have hlen := congrArg List.length h
      rw [List.length_map, List.length_insertionSort] at hlen
      exact hne (List.length_eq_zero.1 hlen)
    simp only [hmap, collect_of_ne_nil _ hnn, List.length_map, List.length_insertionSort]
    rfl
  · have hsorted := List.sorted_insertionSort byPopulationDesc w.db.country.rows
    exact List.pairwise_map.2 hsorted

/-- C2, witness: four countries stored out of order, two with equal
population. -/
theorem getCountries_lists_table_by_population_witness :
    sampleWorld.db.country.rows ≠ [] ∧
    sampleWorld.db.country.queryErr = none ∧
    (∀ r ∈ sampleWorld.db.country.rows, r.scanErr = none) ∧
    sampleWorld.db.country.iterErr = none ∧
    (getCountries (Ctx.acquire sampleRequest) sampleWorld =
        (.ret (⟨sampleRequest, 200, some "application/json",
            some (.obj [("count", .num sampleWorld.db.country.rows.length),
              ("data", .arr (((sampleWorld.db.country.rows.insertionSort byPopulationDesc).map
                CountryRow.toCountry).map Country.marshal)),
              ("success", .bool true)])⟩, none),
         ⟨sampleWorld.db, sampleWorld.log ++ ["Fetching all countries from database"]⟩) ∧
      ((sampleWorld.db.country.rows.insertionSort byPopulationDesc).map
        CountryRow.toCountry).Perm (sampleWorld.db.country.rows.map CountryRow.toCountry) ∧
      ((sampleWorld.db.country.rows.insertionSort byPopulationDesc).map
        CountryRow.toCountry).Sorted (fun a b => a.Population ≥ b.Population)) :=
  ⟨by decide, rfl, by decide, rfl,
    getCountries_lists_table_by_population sampleRequest sampleWorld (by decide) rfl (by decide)
      rfl⟩

/-- C2, counterexample: the query succeeds and all four rows are delivered and
scanned, yet the iteration ends with an error and the answer is the 500
failure envelope, not a listing. -/
theorem getCountries_rejects_broken_stream :
    brokenStreamWorld.db.country.rows ≠ [] ∧
    brokenStreamWorld.db.country.queryErr = none ∧
    (∀ r ∈ brokenStreamWorld.db.country.rows, r.scanErr = none) ∧
    (∃ rows, brokenStreamWorld.db.queryCountries = .ok rows ∧ rows.items.length = 4) ∧
    (getCountries (Ctx.acquire sampleRequest) brokenStreamWorld).status? = some 500 ∧
    (getCountries (Ctx.acquire sampleRequest) brokenStreamWorld).body? =
      some (.obj [("error", .str "Error iterating over countries"),
        ("success", .bool false)]) :=
  ⟨by decide, rfl, by decide, ⟨_, rfl, rfl⟩, rfl, rfl⟩

/-! ## The empty table -/

/-- C3: on an empty `city` table served without fault `getCities` answers
status 200 and `count` 0 and logs its entry line only, but the `data` member
it writes is `null`: the slice `cities` is still `nil` when it is encoded, so
the body is not `{"success":true,"count":0,"data":[]}`. -/
theorem getCities_empty_table_data_null (req : Request) (country : Table CountryRow)
    (log : List String) :
    getCities (Ctx.acquire req) ⟨⟨⟨[], none, none⟩, country⟩, log⟩ =
        (.ret (⟨req, 200, some "application/json",
            some (.obj [("count", .num 0), ("data", .null), ("success", .bool true)])⟩, none),
         ⟨⟨⟨[], none, none⟩, country⟩, log ++ ["Fetching all cities from database"]⟩) ∧
      ((getCities (Ctx.acquire req) ⟨⟨⟨[], none, none⟩, country⟩, log⟩).body?.bind
        (fun body => body.get? "data")) = some .null ∧
      JSON.null ≠ JSON.arr [] :=
  ⟨rfl, rfl, nofun⟩

/-! ## Query failure -/

/-- C4: when `db.Query` fails, each listing handler returns normally (the
outcome is a return with a `nil` error, not a process exit) with status 500
and a body whose only members are `success = false` and `error`, a fixed
message; it logs its entry line and the failure. -/
theorem listing_query_failure_is_500 (c : Ctx) (w : World) :
    (∀ err, w.db.city.queryErr = some err →
      getCities c w =
        (.ret ({ c with status := 500, contentType := some "application/json",
                        body := some (.obj [("error", .str "Failed to fetch cities"),
                          ("success", .bool false)]) }, none),
         ⟨w.db, w.log ++ ["Fetching all cities from database",
            "Failed to fetch cities: " ++ err.Error]⟩)) ∧
    (∀ err, w.db.country.queryErr = some err →
      getCountries c w =
        (.ret ({ c with status := 500, contentType := some "application/json",
                        body := some (.obj [("error", .str "Failed to fetch countries"),
                          ("success", .bool false)]) }, none),
         ⟨w.db, w.log ++ ["Fetching all countries from database",
            "Failed to fetch countries: " ++ err.Error]⟩)) := by
  constructor
  · intro err h
    have hf : failure w.db.queryCities = some (.query, err) := by
      simp [Database.queryCities, Table.query, h, failure]
    exact getCities_of_failure c w _ _ hf
  · intro err h
    have hf : failure w.db.queryCountries = some (.query, err) := by
      simp [Database.queryCountries, Table.query, h, failure]
    exact getCountries_of_failure c w _ _ hf

/-- C4, witness: the database server refuses connections. -/
theorem listing_query_failure_is_500_witness :
    downWorld.db.city.queryErr =
        some ⟨"dial tcp 127.0.0.1:3306: connect: connection refused"⟩ ∧
    downWorld.db.country.queryErr =
        some ⟨"dial tcp 127.0.0.1:3306: connect: connection refused"⟩ ∧
    getCities (Ctx.acquire sampleRequest) downWorld =
        (.ret (⟨sampleRequest, 500, some "application/json",
            some (.obj [("error", .str "Failed to fetch cities"), ("success", .bool false)])⟩,
          none),
         ⟨downWorld.db, ["Fetching all cities from database",
            "Failed to fetch cities: dial tcp 127.0.0.1:3306: connect: connection refused"]⟩) ∧
    getCountries (Ctx.acquire sampleRequest) downWorld =
        (.ret (⟨sampleRequest, 500, some "application/json",
            some (.obj [("error", .str "Failed to fetch countries"), ("success", .bool false)])⟩,
          none),
         ⟨downWorld.db, ["Fetching all countries from database",
            "Failed to fetch countries: dial tcp 127.0.0.1:3306: connect: connection refused"]⟩) :=
  ⟨rfl, rfl,
    (listing_query_failure_is_500 (Ctx.acquire sampleRequest) downWorld).1 _ rfl,
    (listing_query_failure_is_500 (Ctx.acquire sampleRequest) downWorld).2 _ rfl⟩

/-! ## Row and iteration failures -/

/-- The answer of the driver fails at no stage exactly when the query
succeeded, every delivered row scans and the iteration ended cleanly. -/
theorem failure_eq_none_iff {τ : Type} (q : Except GoError (Rows τ)) :
    failure q = none ↔
      ∃ rows, q = .ok rows ∧ (∀ row ∈ rows.items, row.scanErr = none) ∧ rows.Err = none := by
  cases q with
  | error e => simp [failure]
  | ok rows =>
    cases hf : rows.items.findSome? (fun row => row.scanErr) with
    | some e =>
      have hne : ¬ ∀ row ∈ rows.items, row.scanErr = none := by
        intro hall
        rw [List.findSome?_eq_none_iff.2 hall] at hf
        cases hf
      simp only [failure, hf]
      constructor
      · intro h
        cases h
      · rintro ⟨rows', h, hall, -⟩
        cases h
        exact absurd hall hne
    | none =>
      have hall := List.findSome?_eq_none_iff.1 hf
      cases he : rows.Err with
      | none =>
        simp only [failure, hf, he, Option.map_none', true_iff]
        exact ⟨rows, rfl, hall, he⟩
      | some e =>
        simp only [failure, hf, he, Option.map_some']
        constructor
        · intro h
          cases h
        · rintro ⟨rows', h, -, hnone⟩
          cases h
          rw [he] at hnone
          cases hnone

/-- A delivered row that does not scan, or an iteration error, is a failure at
the scan or iteration stage. -/
theorem failure_of_faulty {τ : Type} (q : Except GoError (Rows τ)) (rows : Rows τ)
    (hq : q = .ok rows)
    (h : (∃ row ∈ rows.items, row.scanErr ≠ none) ∨ rows.Err ≠ none) :
    ∃ st err, failure q = some (st, err) := by
  cases hf : failure q with
  | some p => exact ⟨p.1, p.2, rfl⟩
  | none =>
    obtain ⟨rows', hq', hall, herr⟩ := (failure_eq_none_iff q).1 hf
    rw [hq] at hq'
    cases hq'
    rcases h with ⟨row, hmem, hne⟩ | hne
    · exact absurd (hall row hmem) hne
    · exact absurd herr hne

/-- C5: no partial results. If a delivered row fails to scan or the iteration
ends with an error, each listing handler answers status 500 with a body whose
only members are `error` and `success = false`, so without `data` and `count`,
however many rows were scanned before; and a listing handler answers status
200 only if the query succeeded, every delivered row scanned and the iteration
ended without error. -/
theorem listing_no_partial_results (c : Ctx) (w : World) :
    (∀ rows, w.db.queryCities = .ok rows →
      ((∃ row ∈ rows.items, row.scanErr ≠ none) ∨ rows.Err ≠ none) →
      ∃ msg,
        (getCities c w).1 =
          .ret ({ c with status := 500, contentType := some "application/json",
                         body := some (.obj [("error", .str msg), ("success", .bool false)]) },
                none) ∧
        (getCities c w).body?.bind (fun body => body.get? "data") = none ∧
        (getCities c w).body?.bind (fun body => body.get? "count") = none) ∧
    ((getCities c w).status? = some 200 →
      ∃ rows, w.db.queryCities = .ok rows ∧
        (∀ row ∈ rows.items, row.scanErr = none) ∧ rows.Err = none) ∧
    (∀ rows, w.db.queryCountries = .ok rows →
      ((∃ row ∈ rows.items, row.scanErr ≠ none) ∨ rows.Err ≠ none) →
      ∃ msg,
        (getCountries c w).1 =
          .ret ({ c with status := 500, contentType := some "application/json",
                         body := some (.obj [("error", .str msg), ("success", .bool false)]) },
                none) ∧
        (getCountries c w).body?.bind (fun body => body.get? "data") = none ∧
        (getCountries c w).body?.bind (fun body => body.get? "count") = none) ∧
    ((getCountries c w).status? = some 200 →
      ∃ rows, w.db.queryCountries = .ok rows ∧
        (∀ row ∈ rows.items, row.scanErr = none) ∧ rows.Err = none) := by
  refine ⟨?_, ?_, ?_, ?_⟩
  · intro rows hq h
    obtain ⟨st, err, hf⟩ := failure_of_faulty _ rows hq h
    rw [getCities_of_failure c w st err hf]
    exact ⟨citiesMessage st, rfl, rfl, rfl⟩
  · intro h200
    cases hf : failure w.db.queryCities with
    | none => exact (failure_eq_none_iff _).1 hf
    | some p =>
      rw [getCities_of_failure c w p.1 p.2 hf] at h200
      simp [Run.status?, Run.ctx?, Ctx.failed] at h200
  · intro rows hq h
    obtain ⟨st, err, hf⟩ := failure_of_faulty _ rows hq h
    rw [getCountries_of_failure c w st err hf]
    exact ⟨countriesMessage st, rfl, rfl, rfl⟩
  · intro h200
    cases hf : failure w.db.queryCountries with
    | none => exact (failure_eq_none_iff _).1 hf
    | some p =>
      rw [getCountries_of_failure c w p.1 p.2 hf] at h200
      simp [Run.status?, Run.ctx?, Ctx.failed] at h200

/-- C5, witness: the city with `ID` 2 does not scan after the city with `ID` 1
was scanned, and the answer is the bare failure envelope; on the healthy
sample the answer has status 200 and nothing failed. -/
theorem listing_no_partial_results_witness :
    (∃ rows, badRowWorld.db.queryCities = .ok rows ∧
      ((∃ row ∈ rows.items, row.scanErr ≠ none) ∨ rows.Err ≠ none)) ∧
    (∃ msg,
      (getCities (Ctx.acquire sampleRequest) badRowWorld).1 =
        .ret ({ Ctx.acquire sampleRequest with
                  status := 500, contentType := some "application/json",
                  body := some (.obj [("error", .str msg), ("success", .bool false)]) },
              none) ∧
      (getCities (Ctx.acquire sampleRequest) badRowWorld).body?.bind
        (fun body => body.get? "data") = none ∧
      (getCities (Ctx.acquire sampleRequest) badRowWorld).body?.bind
        (fun body => body.get? "count") = none) ∧
    (getCities (Ctx.acquire sampleRequest) sampleWorld).status? = some 200 ∧
    (∃ rows, sampleWorld.db.queryCities = .ok rows ∧
      (∀ row ∈ rows.items, row.scanErr = none) ∧ rows.Err = none) :=
  ⟨⟨_, rfl, Or.inl ⟨_, List.Mem.tail _ (List.Mem.head _), nofun⟩⟩,
    (listing_no_partial_results (Ctx.acquire sampleRequest) badRowWorld).1 _ rfl
      (Or.inl ⟨_, List.Mem.tail _ (List.Mem.head _), nofun⟩),
    rfl,
    (listing_no_partial_results (Ctx.acquire sampleRequest) sampleWorld).2.1 rfl⟩

/-! ## Health probe and application error handler -/

/-- C6: for every request and every state of the database, reachable or not,
`getHealth` answers status 200 with the body whose only members are
`status = "OK"` and `message = "World API is running"`; the answer is the
same in every world, and the world (database and log) is left as it was. -/
theorem getHealth_fixed_response (req : Request) (w : World) :
    getHealth (Ctx.acquire req) w =
        (.ret (⟨req, 200, some "application/json",
            some (.obj [("message", .str "World API is running"), ("status", .str "OK")])⟩,
          none), w) ∧
      (getHealth (Ctx.acquire req) w).body?.bind (fun body => body.get? "status") =
        some (.str "OK") ∧
      (getHealth (Ctx.acquire req) w).body?.bind (fun body => body.get? "message") =
        some (.str "World API is running") ∧
      (getHealth (Ctx.acquire req) w).body?.map JSON.keys = some ["message", "status"] ∧
      (∀ w0 : World, (getHealth (Ctx.acquire req) w0).1 = (getHealth (Ctx.acquire req) w).1) :=
  ⟨rfl, rfl, rfl, rfl, fun _ => rfl⟩

/-- C7: for every error handed to it, the application `ErrorHandler` answers
status 500 with the body whose only members are `success = false` and `error`,
the message of the error itself; its members carry the same keys as the
failure envelope of a listing handler. It logs the error once. -/
theorem ErrorHandler_answers_500_envelope (c : Ctx) (err : GoError) (w : World) :
    ErrorHandler c err w =
        (.ret ({ c with status := 500, contentType := some "application/json",
                        body := some (.obj [("error", .str err.Error),
                          ("success", .bool false)]) }, none),
         ⟨w.db, w.log ++ ["Error: " ++ err.Error]⟩) ∧
      (ErrorHandler c err w).body?.map JSON.keys =
        (getCities c downWorld).body?.map JSON.keys ∧
      (ErrorHandler c err w).body?.map JSON.keys =
        (getCountries c downWorld).body?.map JSON.keys :=
  ⟨rfl, rfl, rfl⟩

/-! ## Logging -/

/-- C8, counterexample: `getHealth` writes no log entry, neither on entry nor
later; the log after the call is the log before it. -/
theorem getHealth_writes_no_log_entry :
    (getHealth (Ctx.acquire ⟨"GET", "/health", ""⟩) timeoutWorld).2.log = timeoutWorld.log ∧
    ¬ ∃ line, (getHealth (Ctx.acquire ⟨"GET", "/health", ""⟩) timeoutWorld).2.log =
        timeoutWorld.log ++ [line] := by
  refine ⟨rfl, ?_⟩
  rintro ⟨line, h⟩
  have hlen := congrArg List.length h
  simp [getHealth, timeoutWorld] at hlen

/-- C8 (as amended): each of the two listing handlers appends one log entry
naming the operation on entry and one further entry on each failure path, so
a listing that succeeds (status 200) logs exactly one entry and a listing
that fails (status 500) exactly two, the second carrying the failure;
`getHealth` appends no entry. -/
theorem listing_log_entries (req : Request) (w : World) :
    (((getCities (Ctx.acquire req) w).status? = some 200 ∧
        (getCities (Ctx.acquire req) w).2.log =
          w.log ++ ["Fetching all cities from database"]) ∨
      ((getCities (Ctx.acquire req) w).status? = some 500 ∧
        ∃ st err, failure w.db.queryCities = some (st, err) ∧
          (getCities (Ctx.acquire req) w).2.log =
            w.log ++ ["Fetching all cities from database", citiesLogEntry st err])) ∧
    (((getCountries (Ctx.acquire req) w).status? = some 200 ∧
        (getCountries (Ctx.acquire req) w).2.log =
          w.log ++ ["Fetching all countries from database"]) ∨
      ((getCountries (Ctx.acquire req) w).status? = some 500 ∧
        ∃ st err, failure w.db.queryCountries = some (st, err) ∧
          (getCountries (Ctx.acquire req) w).2.log =
            w.log ++ ["Fetching all countries from database", countriesLogEntry st err])) ∧
    (getHealth (Ctx.acquire req) w).2.log = w.log := by
  refine ⟨?_, ?_, rfl⟩
  · cases hf : failure w.db.queryCities with
    | none =>
      obtain ⟨rows, hq, -, -⟩ := (failure_eq_none_iff _).1 hf
      rw [getCities_of_ok _ w rows hq hf]
      exact Or.inl ⟨rfl, rfl⟩
    | some p =>
      rw [getCities_of_failure _ w p.1 p.2 hf]
      exact Or.inr ⟨rfl, p.1, p.2, rfl, rfl⟩
  · cases hf : failure w.db.queryCountries with
    | none =>
      obtain ⟨rows, hq, -, -⟩ := (failure_eq_none_iff _).1 hf
      rw [getCountries_of_ok _ w rows hq hf]
      exact Or.inl ⟨rfl, rfl⟩
    | some p =>
      rw [getCountries_of_failure _ w p.1 p.2 hf]
      exact Or.inr ⟨rfl, p.1, p.2, rfl, rfl⟩

/-! ## Reads only -/

/-- C10: two runs of a listing handler that fail at the same stage answer
alike whatever the underlying driver errors are: status 500 and the failure
envelope whose `error` member is the fixed text of that stage. The text of the
driver error goes to the log entry of the failure, which is the fixed text,
`": "` and the error. -/
theorem listing_failure_body_fixed (c : Ctx) (w1 w2 : World) (st : Stage) :
    (∀ e1 e2, failure w1.db.queryCities = some (st, e1) →
      failure w2.db.queryCities = some (st, e2) →
      (getCities c w1).1 = (getCities c w2).1 ∧
      (getCities c w1).1 =
        .ret ({ c with status := 500, contentType := some "application/json",
                       body := some (.obj [("error", .str (citiesMessage st)),
                         ("success", .bool false)]) }, none) ∧
      (getCities c w1).2.log =
        w1.log ++ ["Fetching all cities from database", citiesMessage st ++ ": " ++ e1.Error]) ∧
    (∀ e1 e2, failure w1.db.queryCountries = some (st, e1) →
      failure w2.db.queryCountries = some (st, e2) →
      (getCountries c w1).1 = (getCountries c w2).1 ∧
      (getCountries c w1).1 =
        .ret ({ c with status := 500, contentType := some "application/json",
                       body := some (.obj [("error", .str (countriesMessage st)),
                         ("success", .bool false)]) }, none) ∧
      (getCountries c w1).2.log =
        w1.log ++ ["Fetching all countries from database",
          countriesMessage st ++ ": " ++ e1.Error]) ∧
    (citiesMessage .query = "Failed to fetch cities" ∧
      citiesMessage .scan = "Failed to scan city data" ∧
      citiesMessage .iteration = "Error iterating over cities") ∧
    (countriesMessage .query = "Failed to fetch countries" ∧
      countriesMessage .scan = "Failed to scan country data" ∧
      countriesMessage .iteration = "Error iterating over countries") := by
  refine ⟨?_, ?_, ⟨rfl, rfl, rfl⟩, ⟨rfl, rfl, rfl⟩⟩
  · intro e1 e2 h1 h2
    rw [getCities_of_failure c w1 st e1 h1, getCities_of_failure c w2 st e2 h2]
    refine ⟨rfl, rfl, ?_⟩
    cases st <;> rfl
  · intro e1 e2 h1 h2
    rw [getCountries_of_failure c w1 st e1 h1, getCountries_of_failure c w2 st e2 h2]
    refine ⟨rfl, rfl, ?_⟩
    cases st <;> rfl

/-- C10, witness: a refused connection and a connection timeout both fail at
the query stage; the answers agree and only the logs tell the errors apart. -/
theorem listing_failure_body_fixed_witness :
    failure downWorld.db.queryCities =
      some (.query, ⟨"dial tcp 127.0.0.1:3306: connect: connection refused"⟩) ∧
    failure timeoutWorld.db.queryCities =
      some (.query, ⟨"dial tcp 10.0.0.7:3306: i/o timeout"⟩) ∧
    ((getCities (Ctx.acquire sampleRequest) downWorld).1 =
        (getCities (Ctx.acquire sampleRequest) timeoutWorld).1 ∧
      (getCities (Ctx.acquire sampleRequest) downWorld).1 =
        .ret ({ Ctx.acquire sampleRequest with
                  status := 500, contentType := some "application/json",
                  body := some (.obj [("error", .str (citiesMessage .query)),
                    ("success", .bool false)]) }, none) ∧
      (getCities (Ctx.acquire sampleRequest) downWorld).2.log =
        downWorld.log ++ ["Fetching all cities from database",
          citiesMessage .query ++ ": " ++
            (GoError.mk "dial tcp 127.0.0.1:3306: connect: connection refused").Error]) ∧
    failure downWorld.db.queryCountries =
      some (.query, ⟨"dial tcp 127.0.0.1:3306: connect: connection refused"⟩) ∧
    failure timeoutWorld.db.queryCountries =
      some (.query, ⟨"dial tcp 10.0.0.7:3306: i/o timeout"⟩) ∧
    ((getCountries (Ctx.acquire sampleRequest) downWorld).1 =
        (getCountries (Ctx.acquire sampleRequest) timeoutWorld).1 ∧
      (getCountries (Ctx.acquire sampleRequest) downWorld).1 =
        .ret ({ Ctx.acquire sampleRequest with
                  status := 500, contentType := some "application/json",
                  body := some (.obj [("error", .str (countriesMessage .query)),
                    ("success", .bool false)]) }, none) ∧
      (getCountries (Ctx.acquire sampleRequest) downWorld).2.log =
        downWorld.log ++ ["Fetching all countries from database",
          countriesMessage .query ++ ": " ++
            (GoError.mk "dial tcp 127.0.0.1:3306: connect: connection refused").Error]) :=
  ⟨rfl, rfl,
    (listing_failure_body_fixed (Ctx.acquire sampleRequest) downWorld timeoutWorld .query).1
      _ _ rfl rfl,
    rfl, rfl,
    (listing_failure_body_fixed (Ctx.acquire sampleRequest) downWorld timeoutWorld .query).2.1
      _ _ rfl rfl⟩

end WorldAPI
